import Mathlib

set_option maxRecDepth 40000

/-
Verification development for the portfolio build script
(scripts/build_site.py of the repository).

The script is a single-pass batch job: it loads data/publications.csv
(as an all-string table), data/profile.json and data/metrics.json,
computes summary totals, and renders the records to publications.json,
summary.json, a PDF CV and a DOCX CV.

Modelling conventions used throughout this file:
  * CSV cells are strings (the script loads with dtype=str,
    keep_default_na=False and fillna("")), so a table row is a record
    of thirteen strings.
  * Python floats are modelled exactly: a float value is either a
    rational number, NaN, +inf or -inf.  Binary rounding of float
    arithmetic is idealised away (values are kept as exact rationals);
    NaN/inf propagation, which several claims depend on, is modelled
    faithfully.
  * Python operations that can raise are modelled as Except-valued
    functions; the try/except wrappers of the script catch those
    errors explicitly.
  * Filesystem behaviour of main() is modelled as a trace of read and
    write events over the named data files, with parse outcomes of the
    input files supplied by an abstract filesystem state.
-/

/-- A Python float value: exact rational, NaN, or a signed infinity. -/
inductive PyFloat where
  | finite (q : ℚ)
  | nan
  | inf
  | ninf
deriving DecidableEq

/-- A Python value as it can reach the cell-coercion helpers:
None, a float, an int, or a string. -/
inductive PyVal where
  | none
  | float (f : PyFloat)
  | int (n : ℤ)
  | str (s : String)
deriving DecidableEq

/-- Errors raised by the modelled Python primitives. -/
inductive PyErr where
  | typeError
  | valueError
  | overflowError
deriving DecidableEq

def digitVal (c : Char) : ℕ := c.toNat - 48

/-- Maximal run of decimal digits, allowing single underscores between
digits, the numeric-literal form accepted by Python float().  Returns
the value, the number of digits consumed, and the rest. -/
def digitsAux : List Char → ℕ → ℕ → ℕ × ℕ × List Char
  | [], v, n => (v, n, [])
  | '_' :: c :: cs, v, n =>
    if n > 0 && c.isDigit then digitsAux cs (10 * v + digitVal c) (n + 1)
    else (v, n, '_' :: c :: cs)
  | ['_'], v, n => (v, n, ['_'])
  | c :: cs, v, n =>
    if c.isDigit then digitsAux cs (10 * v + digitVal c) (n + 1)
    else (v, n, c :: cs)

def parseDigits (cs : List Char) : Option (ℕ × ℕ × List Char) :=
  match digitsAux cs 0 0 with
  | (_, 0, _) => Option.none
  | (v, n, rest) => some (v, n, rest)

/-- Optional sign; returns (isNegative, rest). -/
def stripSign : List Char → Bool × List Char
  | '+' :: cs => (false, cs)
  | '-' :: cs => (true, cs)
  | cs => (false, cs)

/-- Mantissa of a float literal: digits, optionally with a decimal
point and fractional digits ("5", "5.", "5.25", ".25"). -/
def parseMantissa (cs : List Char) : Option (ℚ × List Char) :=
  match parseDigits cs with
  | some (ip, _, rest) =>
    match rest with
    | '.' :: rest2 =>
      match parseDigits rest2 with
      | some (fp, fn, rest3) => some ((ip : ℚ) + (fp : ℚ) / (10 : ℚ) ^ fn, rest3)
      | Option.none => some ((ip : ℚ), rest2)
    | _ => some ((ip : ℚ), rest)
  | Option.none =>
    match cs with
    | '.' :: rest2 =>
      match parseDigits rest2 with
      | some (fp, fn, rest3) => some ((fp : ℚ) / (10 : ℚ) ^ fn, rest3)
      | Option.none => Option.none
    | _ => Option.none

/-- Optional exponent part (e or E, sign, digits). -/
def parseExp (cs : List Char) : Option (ℤ × List Char) :=
  match cs with
  | c :: rest =>
    if c = 'e' || c = 'E' then
      match stripSign rest with
      | (eneg, rest2) =>
        match parseDigits rest2 with
        | some (ev, _, rest3) => some ((if eneg then -(ev : ℤ) else (ev : ℤ)), rest3)
        | Option.none => Option.none
    else some (0, cs)
  | [] => some (0, [])

def dropWs (cs : List Char) : List Char := cs.dropWhile (fun c => c.isWhitespace)

/-- Strip whitespace from both ends (Python str.strip, and the
stripping float() applies to its argument). -/
def trimChars (cs : List Char) : List Char := (dropWs (dropWs cs.reverse)).reverse

/-- Python float(string): optional sign, then inf/infinity/nan
(case-insensitive) or a decimal literal with optional exponent.
Unicode digits and non-ASCII whitespace are not modelled. -/
def parseFloatStr (s : String) : Option PyFloat :=
  let cs := trimChars s.toList
  if cs = [] then Option.none else
  match stripSign cs with
  | (neg, cs1) =>
    let low := String.mk (cs1.map Char.toLower)
    if low = "inf" || low = "infinity" then some (if neg then PyFloat.ninf else PyFloat.inf)
    else if low = "nan" then some PyFloat.nan
    else
      match parseMantissa cs1 with
      | some (m, rest) =>
        match parseExp rest with
        | some (e, []) =>
          let mag : ℚ := if 0 ≤ e then m * (10 : ℚ) ^ e.toNat else m / (10 : ℚ) ^ (-e).toNat
          some (PyFloat.finite (if neg then -mag else mag))
        | _ => Option.none
      | Option.none => Option.none

/-- pd.isna: true on None and on float NaN, false on ints and strings. -/
def pdIsna : PyVal → Bool
  | PyVal.none => true
  | PyVal.float PyFloat.nan => true
  | _ => false

/-- Python float(x): raises TypeError on None, ValueError on an
unparseable string. -/
def pyFloat : PyVal → Except PyErr PyFloat
  | PyVal.none => Except.error PyErr.typeError
  | PyVal.float f => Except.ok f
  | PyVal.int n => Except.ok (PyFloat.finite (n : ℚ))
  | PyVal.str s =>
    match parseFloatStr s with
    | some f => Except.ok f
    | Option.none => Except.error PyErr.valueError

/-- Truncation toward zero, the behaviour of Python int(float). -/
def ratTruncToZero (q : ℚ) : ℤ := Int.tdiv q.num (q.den : ℤ)

/-- Python int(f) on a float: truncates finite values, raises on
NaN and infinities. -/
def pyIntOfFloat : PyFloat → Except PyErr ℤ
  | PyFloat.finite q => Except.ok (ratTruncToZero q)
  | PyFloat.nan => Except.error PyErr.valueError
  | PyFloat.inf => Except.error PyErr.overflowError
  | PyFloat.ninf => Except.error PyErr.overflowError

/-- Python int(float(x)), the body of _safe_int after the isna check. -/
def pyInt (v : PyVal) : Except PyErr ℤ :=
  match pyFloat v with
  | Except.ok f => pyIntOfFloat f
  | Except.error e => Except.error e

/-- _safe_float (build_site.py:49-55): None on NA input, float(x) if
it parses, None when the conversion raises. -/
def safeFloat (v : PyVal) : Option PyFloat :=
  if pdIsna v then Option.none
  else
    match pyFloat v with
    | Except.ok f => some f
    | Except.error _ => Option.none

/-- _safe_int (build_site.py:58-64): None on NA input, int(float(x))
if that succeeds, None when the conversion raises. -/
def safeInt (v : PyVal) : Option ℤ :=
  if pdIsna v then Option.none
  else
    match pyInt v with
    | Except.ok n => some n
    | Except.error _ => Option.none

/-- A calendar date as produced by datetime.strptime. -/
structure PyDate where
  year : ℕ
  month : ℕ
  day : ℕ
deriving DecidableEq

def parseNat2 : List Char → Option (ℕ × List Char)
  | c1 :: c2 :: rest =>
    if c1.isDigit then
      (if c2.isDigit then some (10 * digitVal c1 + digitVal c2, rest)
       else some (digitVal c1, c2 :: rest))
    else Option.none
  | [c1] => if c1.isDigit then some (digitVal c1, []) else Option.none
  | [] => Option.none

def parseNat4 : List Char → Option (ℕ × List Char)
  | a :: b :: c :: d :: rest =>
    if a.isDigit && b.isDigit && c.isDigit && d.isDigit then
      some (1000 * digitVal a + 100 * digitVal b + 10 * digitVal c + digitVal d, rest)
    else Option.none
  | _ => Option.none

def expectChar (c : Char) : List Char → Option (List Char)
  | x :: rest => if x = c then some rest else Option.none
  | [] => Option.none

def isLeapYear (y : ℕ) : Bool := y % 4 = 0 && (y % 100 ≠ 0 || y % 400 = 0)

def daysInMonth (y m : ℕ) : ℕ :=
  if m = 2 then (if isLeapYear y then 29 else 28)
  else if m = 4 || m = 6 || m = 9 || m = 11 then 30
  else 31

/-- Validity enforced by datetime.strptime together with the datetime
constructor (MINYEAR 1, MAXYEAR 9999). -/
def validDate (y m d : ℕ) : Bool :=
  1 ≤ y && y ≤ 9999 && 1 ≤ m && m ≤ 12 && 1 ≤ d && d ≤ daysInMonth y m

/-- strptime with format DD.MM.YYYY (day and month 1-2 digits, year
exactly 4 digits, nothing left over). -/
def strptimeDMY (cs : List Char) : Option PyDate :=
  match parseNat2 cs with
  | Option.none => Option.none
  | some (d, r1) =>
    match expectChar '.' r1 with
    | Option.none => Option.none
    | some r2 =>
      match parseNat2 r2 with
      | Option.none => Option.none
      | some (m, r3) =>
        match expectChar '.' r3 with
        | Option.none => Option.none
        | some r4 =>
          match parseNat4 r4 with
          | Option.none => Option.none
          | some (y, r5) =>
            if r5.isEmpty && validDate y m d then some ⟨y, m, d⟩ else Option.none

/-- strptime with format YYYY-MM-DD. -/
def strptimeYMD (cs : List Char) : Option PyDate :=
  match parseNat4 cs with
  | Option.none => Option.none
  | some (y, r1) =>
    match expectChar '-' r1 with
    | Option.none => Option.none
    | some r2 =>
      match parseNat2 r2 with
      | Option.none => Option.none
      | some (m, r3) =>
        match expectChar '-' r3 with
        | Option.none => Option.none
        | some r4 =>
          match parseNat2 r4 with
          | Option.none => Option.none
          | some (d, r5) =>
            if r5.isEmpty && validDate y m d then some ⟨y, m, d⟩ else Option.none

/-- str(x) for the values the date parser can receive.  The repr of a
finite float is abstracted by the repr of the exact rational; no such
string is a valid date in either model. -/
def pyStr : PyVal → String
  | PyVal.none => "None"
  | PyVal.str s => s
  | PyVal.int n => toString n
  | PyVal.float (PyFloat.finite q) => toString q
  | PyVal.float PyFloat.nan => "nan"
  | PyVal.float PyFloat.inf => "inf"
  | PyVal.float PyFloat.ninf => "-inf"

/-- Date part of _parse_date_ddmmyyyy after the early-return checks:
strip, reject empty, try DD.MM.YYYY then YYYY-MM-DD. -/
def parseDateStr (s : String) : Option PyDate :=
  if (trimChars s.toList).isEmpty then Option.none
  else
    match strptimeDMY (trimChars s.toList) with
    | some d => some d
    | Option.none => strptimeYMD (trimChars s.toList)

/-- _parse_date_ddmmyyyy (build_site.py:67-79). -/
def parseDateAny (v : PyVal) : Option PyDate :=
  match v with
  | PyVal.none => Option.none
  | PyVal.float PyFloat.nan => Option.none
  | v => parseDateStr (pyStr v)

/-- Days from 1970-01-01 for a civil date (proleptic Gregorian),
the standard days-from-civil algorithm. -/
def daysFromCivil (Y : ℤ) (m d : ℕ) : ℤ :=
  let y : ℤ := if m ≤ 2 then Y - 1 else Y
  let era : ℤ := Int.fdiv y 400
  let yoe : ℤ := y - era * 400
  let mp : ℤ := ((m : ℤ) + 9) % 12
  let doy : ℤ := (153 * mp + 2) / 5 + (d : ℤ) - 1
  let doe : ℤ := yoe * 365 + yoe / 4 - yoe / 100 + doy
  era * 146097 + doe - 719468

/-- datetime.timestamp() of a midnight naive datetime, with the local
timezone taken to be UTC: seconds since the epoch. -/
def tsOf (d : PyDate) : ℤ := 86400 * daysFromCivil (d.year : ℤ) d.month d.day

/-- A row of data/publications.csv.  The script loads the CSV with
dtype=str, keep_default_na=False and fillna(""), so every cell is a
string; these are the thirteen columns the script uses (keep_cols of
export_publications_json together with the columns read elsewhere). -/
structure Row where
  record_type : String
  year : String
  category : String
  subtype : String
  citation : String
  doi : String
  mnicsw_points : String
  impact_factor : String
  start_date : String
  end_date : String
  city : String
  country : String
  award : String
deriving DecidableEq

/-- ASCII lowering, modelling str.lower on the ASCII data the masks
compare against. -/
def lowerStr (s : String) : String := String.mk (s.toList.map Char.toLower)

/-- ASCII uppering, modelling str.upper. -/
def upperStr (s : String) : String := String.mk (s.toList.map Char.toUpper)

def startsWithL : List Char → List Char → Bool
  | [], _ => true
  | _ :: _, [] => false
  | a :: as, b :: bs => a == b && startsWithL as bs

def containsL (pat : List Char) : List Char → Bool
  | [] => startsWithL pat []
  | c :: cs => startsWithL pat (c :: cs) || containsL pat cs

/-- Substring containment, modelling pandas str.contains with a
pattern free of regex metacharacters. -/
def strContains (s pat : String) : Bool := containsL pat.toList s.toList

/-- Derived column year_int = year.apply(_safe_int). -/
def yearInt (r : Row) : Option ℤ := safeInt (PyVal.str r.year)

/-- Derived column mnicsw_points_num = mnicsw_points.apply(_safe_float). -/
def mnicswNum (r : Row) : Option PyFloat := safeFloat (PyVal.str r.mnicsw_points)

/-- Derived column impact_factor_num = impact_factor.apply(_safe_float). -/
def impactNum (r : Row) : Option PyFloat := safeFloat (PyVal.str r.impact_factor)

/-- Derived column start_date_dt = start_date.apply(_parse_date_ddmmyyyy). -/
def startDateDt (r : Row) : Option PyDate := parseDateAny (PyVal.str r.start_date)

/-- Derived column end_date_dt = end_date.apply(_parse_date_ddmmyyyy). -/
def endDateDt (r : Row) : Option PyDate := parseDateAny (PyVal.str r.end_date)

/-- Mask is_list_a: category.str.upper().eq("A"). -/
def isListA (r : Row) : Bool := upperStr r.category == "A"

/-- Mask is_chapter: record_type == "book_chapter" or category
(lowered) contains "book chapter". -/
def isChapter (r : Row) : Bool :=
  r.record_type == "book_chapter" || strContains (lowerStr r.category) "book chapter"

/-- Mask is_list_b: category.str.upper().eq("B") | is_chapter. -/
def isListB (r : Row) : Bool := upperStr r.category == "B" || isChapter r

/-- Mask is_conf: record_type == "conference_contribution" or category
(lowered) equals "conference". -/
def isConf (r : Row) : Bool :=
  r.record_type == "conference_contribution" || lowerStr r.category == "conference"

/-- subtype (lowered) contains "oral". -/
def oralSub (r : Row) : Bool := strContains (lowerStr r.subtype) "oral"

/-- subtype (lowered) contains "poster". -/
def posterSub (r : Row) : Bool := strContains (lowerStr r.subtype) "poster"

/-- Mask conf_oral: is_conf & subtype contains "oral". -/
def confOral (r : Row) : Bool := isConf r && oralSub r

/-- Mask conf_poster: is_conf & subtype contains "poster". -/
def confPoster (r : Row) : Bool := isConf r && posterSub r

def PyFloat.isNan : PyFloat → Bool
  | PyFloat.nan => true
  | _ => false

/-- Python float addition on the exact model (NaN and infinity
propagation as in IEEE). -/
def pyAdd : PyFloat → PyFloat → PyFloat
  | PyFloat.nan, _ => PyFloat.nan
  | _, PyFloat.nan => PyFloat.nan
  | PyFloat.inf, PyFloat.ninf => PyFloat.nan
  | PyFloat.ninf, PyFloat.inf => PyFloat.nan
  | PyFloat.inf, _ => PyFloat.inf
  | _, PyFloat.inf => PyFloat.inf
  | PyFloat.ninf, _ => PyFloat.ninf
  | _, PyFloat.ninf => PyFloat.ninf
  | PyFloat.finite a, PyFloat.finite b => PyFloat.finite (a + b)

/-- Sum of a list of float values, starting from 0.0. -/
def pySum (l : List PyFloat) : PyFloat := l.foldl pyAdd (PyFloat.finite 0)

/-- pd.Series(col).dropna(): drops both None entries and NaN floats. -/
def seriesDropNA (col : List (Option PyFloat)) : List PyFloat :=
  (col.filterMap id).filter (fun f => !f.isNan)

/-- float(pd.Series(col).dropna().sum()), the aggregation applied to
both numeric columns in compute_summary (build_site.py:149-150). -/
def seriesSum (col : List (Option PyFloat)) : PyFloat := pySum (seriesDropNA col)

/-- A JSON number as written to summary.json (json.dumps also emits
NaN and Infinity for the corresponding floats). -/
inductive JsonNum where
  | int (n : ℤ)
  | rat (q : ℚ)
  | nan
  | inf
  | ninf
deriving DecidableEq

def JsonNum.toPyFloat : JsonNum → PyFloat
  | JsonNum.int n => PyFloat.finite (n : ℚ)
  | JsonNum.rat q => PyFloat.finite q
  | JsonNum.nan => PyFloat.nan
  | JsonNum.inf => PyFloat.inf
  | JsonNum.ninf => PyFloat.ninf

/-- Reporting of the MNiSW total (build_site.py:174):
int(total_points) if float(total_points).is_integer() else total_points. -/
def reportMnicsw : PyFloat → JsonNum
  | PyFloat.finite q => if q.den = 1 then JsonNum.int q.num else JsonNum.rat q
  | PyFloat.nan => JsonNum.nan
  | PyFloat.inf => JsonNum.inf
  | PyFloat.ninf => JsonNum.ninf

/-- Round half to even, the tie behaviour of Python round() on the
exact value. -/
def roundHalfEven (x : ℚ) : ℤ :=
  let f : ℤ := Rat.floor x
  let r : ℚ := x - (f : ℚ)
  if r < 1 / 2 then f
  else if 1 / 2 < r then f + 1
  else if f % 2 = 0 then f else f + 1

/-- round(x, 3) on the exact model. -/
def roundTo3 (q : ℚ) : ℚ := (roundHalfEven (q * 1000) : ℚ) / 1000

/-- Reporting of the impact-factor total (build_site.py:175):
round(total_if, 3). -/
def reportIF : PyFloat → JsonNum
  | PyFloat.finite q => JsonNum.rat (roundTo3 q)
  | PyFloat.nan => JsonNum.nan
  | PyFloat.inf => JsonNum.inf
  | PyFloat.ninf => JsonNum.ninf

/-- The totals block of summary.json. -/
structure Totals where
  mnicsw_points : JsonNum
  sum_impact_factor : JsonNum
  records_total : ℕ
  publications_list_a : ℕ
  publications_list_b : ℕ
  book_chapters : ℕ
  conference_contributions_total : ℕ
  conference_oral_presentations : ℕ
  conference_posters : ℕ
  conference_type_unspecified : ℕ
deriving DecidableEq

/-- The scholar-metrics record of data/metrics.json.  Values are
copied verbatim into summary.json; they are modelled as strings (the
default record of load_scholar_metrics is all strings). -/
structure Metrics where
  source : String
  author_id : String
  profile_url : String
  citations_all : String
  citations_since_2016 : String
  h_index_all : String
  h_index_since_2016 : String
  i10_index_all : String
  i10_index_since_2016 : String
  last_updated : String
  note : String
deriving DecidableEq

/-- The scholar_metrics block of summary.json (the five fields
compute_summary copies with metrics.get(key, "")). -/
structure ScholarMetricsOut where
  citations_all : String
  h_index_all : String
  i10_index_all : String
  last_updated : String
  profile_url : String
deriving DecidableEq

/-- summary.json as computed by compute_summary.  The generated_on
field (a wall-clock timestamp) is not modelled. -/
structure Summary where
  computed_from : String
  totals : Totals
  scholar_metrics : ScholarMetricsOut
  year_counts : List (String × ℕ)
deriving DecidableEq

/-- The year_counts block: counts of rows per parsed year, keys in
descending year order. -/
def yearCounts (rows : List Row) : List (String × ℕ) :=
  let ys := rows.filterMap yearInt
  (List.insertionSort (fun a b => b ≤ a) ys.dedup).map (fun y => (toString y, ys.count y))

/-- compute_summary (build_site.py:145-194).  The derived numeric
columns of load_publications_df are inlined via mnicswNum, impactNum
and yearInt. -/
def computeSummary (rows : List Row) (metrics : Metrics) : Summary :=
  let totalPoints := seriesSum (rows.map mnicswNum)
  let totalIF := seriesSum (rows.map impactNum)
  { computed_from := "data/publications.csv"
  , totals :=
    { mnicsw_points := reportMnicsw totalPoints
    , sum_impact_factor := reportIF totalIF
    , records_total := rows.length
    , publications_list_a := rows.countP (fun r => isListA r)
    , publications_list_b := rows.countP (fun r => isListB r)
    , book_chapters := rows.countP (fun r => isChapter r)
    , conference_contributions_total := rows.countP (fun r => isConf r)
    , conference_oral_presentations := rows.countP (fun r => confOral r)
    , conference_posters := rows.countP (fun r => confPoster r)
    , conference_type_unspecified :=
        rows.countP (fun r => isConf r && !(confOral r || confPoster r)) }
  , scholar_metrics :=
    { citations_all := metrics.citations_all
    , h_index_all := metrics.h_index_all
    , i10_index_all := metrics.i10_index_all
    , last_updated := metrics.last_updated
    , profile_url := metrics.profile_url }
  , year_counts := yearCounts rows }

/-- Sort key of export_publications_json (build_site.py:201-207):
(year_int if it is an int else -1, start-date timestamp if the date
parsed else 0.0). -/
def sortKey (r : Row) : ℤ × ℤ :=
  ((yearInt r).getD (-1), (startDateDt r).elim 0 tsOf)

/-- Lexicographic order on sort keys, the Python tuple comparison. -/
def pairLeB (p q : ℤ × ℤ) : Bool :=
  decide (p.1 < q.1) || (decide (p.1 = q.1) && decide (p.2 ≤ q.2))

/-- a may come before b in the descending sort of
export_publications_json: the key of b is at most the key of a. -/
def rowBefore (a b : Row) : Prop := pairLeB (sortKey b) (sortKey a) = true

instance : DecidableRel rowBefore :=
  fun a b => inferInstanceAs (Decidable (pairLeB (sortKey b) (sortKey a) = true))

instance : IsTotal Row rowBefore :=
  ⟨fun a b => by
    unfold rowBefore pairLeB
    simp only [Bool.or_eq_true, Bool.and_eq_true, decide_eq_true_eq]
    omega⟩

instance : IsTrans Row rowBefore :=
  ⟨fun a b c hab hbc => by
    unfold rowBefore pairLeB at hab hbc ⊢
    simp only [Bool.or_eq_true, Bool.and_eq_true, decide_eq_true_eq] at hab hbc ⊢
    omega⟩

/-- export_publications_json (build_site.py:197-230): sort all rows by
the key, descending, and emit the thirteen user-facing columns (which
are exactly the Row fields, so a record is a Row). -/
def exportPublications (rows : List Row) : List Row :=
  List.insertionSort rowBefore rows

/-- Descending year order with unparsed years last, the order of
sort_values(by=["year_int"], ascending=False) inside the CV section
helper (missing values are placed last by pandas). -/
def yearDescB (a b : Row) : Bool :=
  match yearInt a, yearInt b with
  | some x, some y => decide (y ≤ x)
  | some _, Option.none => true
  | Option.none, some _ => false
  | Option.none, Option.none => true

def yearDesc (a b : Row) : Prop := yearDescB a b = true

instance : DecidableRel yearDesc :=
  fun a b => inferInstanceAs (Decidable (yearDescB a b = true))

/-- Conference sort key of the CV generators: (timestamp of start
date if it parsed else 0.0, year_int or 0), descending. -/
def confKey (r : Row) : ℤ × ℤ :=
  ((startDateDt r).elim 0 tsOf, (yearInt r).getD 0)

def confBefore (a b : Row) : Prop := pairLeB (confKey b) (confKey a) = true

instance : DecidableRel confBefore :=
  fun a b => inferInstanceAs (Decidable (pairLeB (confKey b) (confKey a) = true))

/-- Section "Peer-reviewed publications (List A)" of the PDF CV
(build_site.py:384): rows with category.upper() == "A", year desc. -/
def pdfListA (rows : List Row) : List Row :=
  List.insertionSort yearDesc (rows.filter (fun r => upperStr r.category == "A"))

/-- Section "Other publications (List B)" of the PDF CV
(build_site.py:385): rows with category.upper() == "B", year desc. -/
def pdfListB (rows : List Row) : List Row :=
  List.insertionSort yearDesc (rows.filter (fun r => upperStr r.category == "B"))

/-- Section "Book chapters" of the PDF CV (build_site.py:386). -/
def pdfChapters (rows : List Row) : List Row :=
  List.insertionSort yearDesc (rows.filter (fun r => isChapter r))

/-- Section "Conference contributions" of the PDF CV
(build_site.py:389-401). -/
def pdfConference (rows : List Row) : List Row :=
  List.insertionSort confBefore (rows.filter (fun r => isConf r))

/-- Section "Peer-reviewed publications (List A)" of the DOCX CV
(build_site.py:485). -/
def docxListA (rows : List Row) : List Row :=
  List.insertionSort yearDesc (rows.filter (fun r => upperStr r.category == "A"))

/-- Section "Other publications (List B)" of the DOCX CV
(build_site.py:486). -/
def docxListB (rows : List Row) : List Row :=
  List.insertionSort yearDesc (rows.filter (fun r => upperStr r.category == "B"))

/-- Section "Book chapters" of the DOCX CV (build_site.py:487). -/
def docxChapters (rows : List Row) : List Row :=
  List.insertionSort yearDesc (rows.filter (fun r => isChapter r))

/-- Section "Conference contributions" of the DOCX CV
(build_site.py:490-498). -/
def docxConference (rows : List Row) : List Row :=
  List.insertionSort confBefore (rows.filter (fun r => isConf r))

/-- Number of CV sections of the PDF CV that list a given row. -/
def sectionsContaining (rows : List Row) (r : Row) : ℕ :=
  (if r ∈ pdfListA rows then 1 else 0) + (if r ∈ pdfListB rows then 1 else 0) +
    (if r ∈ pdfChapters rows then 1 else 0) + (if r ∈ pdfConference rows then 1 else 0)

/-- The data files main() touches. -/
inductive DataPath where
  | profileJson
  | metricsJson
  | publicationsCsv
  | publicationsJson
  | summaryJson
  | cvPdf
  | cvDocx
deriving DecidableEq

/-- A filesystem access performed by the build. -/
inductive Event where
  | read (p : DataPath)
  | write (p : DataPath)
deriving DecidableEq

/-- The ways a run of main() can fail. -/
inductive BuildErr where
  | fileNotFound (p : DataPath)
  | jsonDecodeError (p : DataPath)
  | csvReadError
  | missingColumn
  | importErrorReportlab
deriving DecidableEq

/-- The parsed profile.json document, abstracted as a string map;
its content only feeds the CV headers. -/
def ProfileDoc := List (String × String)

/-- Outcome of one successful pd.read_csv call: whether the required
columns are present (their absence makes the later column accesses
raise KeyError), and the parsed rows. -/
structure RawTable where
  hasCols : Bool
  rows : List Row

/-- Abstract filesystem and environment state for one run: presence
of each input, parse outcome of each input when present (an
Except.error models a raised decode error), per-encoding outcome of
pd.read_csv over the five attempted encodings (none models a raised
read error), and availability of the two document libraries. -/
structure FS where
  profilePresent : Bool
  profileDoc : Except Unit ProfileDoc
  metricsPresent : Bool
  metricsDoc : Except Unit Metrics
  csvPresent : Bool
  csvRead : Fin 5 → Option RawTable
  reportlabAvailable : Bool
  docxAvailable : Bool

/-- The default record load_scholar_metrics returns when
data/metrics.json does not exist (build_site.py:88-102). -/
def defaultScholarMetrics : Metrics :=
  { source := "Google Scholar"
  , author_id := ""
  , profile_url := ""
  , citations_all := ""
  , citations_since_2016 := ""
  , h_index_all := ""
  , h_index_since_2016 := ""
  , i10_index_all := ""
  , i10_index_since_2016 := ""
  , last_updated := ""
  , note := "metrics.json not found" }

/-- The encoding loop of load_publications_df: one read of the CSV
per attempted encoding, stopping at the first success. -/
def tryEncodings (f : Fin 5 → Option RawTable) : List (Fin 5) → List Event × Option RawTable
  | [] => ([], Option.none)
  | e :: es =>
    match f e with
    | some t => ([Event.read DataPath.publicationsCsv], some t)
    | Option.none =>
      match tryEncodings f es with
      | (tr, r) => (Event.read DataPath.publicationsCsv :: tr, r)

def encodingList : List (Fin 5) := [0, 1, 2, 3, 4]

/-- load_publications_df (build_site.py:106-142): FileNotFoundError
when the CSV is absent; otherwise try the five encodings in order,
re-raising the last error if all fail, then access the columns
(KeyError when a required column is missing; the coercions themselves
are total). -/
def loadPublications (fs : FS) : List Event × Except BuildErr (List Row) :=
  if fs.csvPresent = false then
    ([], Except.error (BuildErr.fileNotFound DataPath.publicationsCsv))
  else
    match tryEncodings fs.csvRead encodingList with
    | (tr, some t) =>
      if t.hasCols then (tr, Except.ok t.rows) else (tr, Except.error BuildErr.missingColumn)
    | (tr, Option.none) => (tr, Except.error BuildErr.csvReadError)

/-- Result of one run of main(): the ordered trace of file accesses,
the error it stopped with (if any), and the contents written to
publications.json and summary.json (if reached). -/
structure RunResult where
  trace : List Event
  err : Option BuildErr
  pubsOut : Option (List Row)
  summaryOut : Option Summary

/-- main (build_site.py:517-537): load profile.json (FileNotFoundError
when absent), load metrics.json (default record when absent), load the
CSV, then write publications.json, summary.json, the PDF CV (after
importing reportlab) and the DOCX CV (skipped when python-docx is
unavailable). -/
def mainRun (fs : FS) : RunResult :=
  if fs.profilePresent = false then
    ⟨[], some (BuildErr.fileNotFound DataPath.profileJson), Option.none, Option.none⟩
  else
    match fs.profileDoc with
    | Except.error _ =>
      ⟨[Event.read DataPath.profileJson], some (BuildErr.jsonDecodeError DataPath.profileJson),
        Option.none, Option.none⟩
    | Except.ok _ =>
      let tr1 := [Event.read DataPath.profileJson]
      let metricsStep : List Event × Except BuildErr Metrics :=
        if fs.metricsPresent then
          match fs.metricsDoc with
          | Except.ok m => ([Event.read DataPath.metricsJson], Except.ok m)
          | Except.error _ =>
            ([Event.read DataPath.metricsJson],
              Except.error (BuildErr.jsonDecodeError DataPath.metricsJson))
        else ([], Except.ok defaultScholarMetrics)
      match metricsStep with
      | (tr2, Except.error e) => ⟨tr1 ++ tr2, some e, Option.none, Option.none⟩
      | (tr2, Except.ok metrics) =>
        match loadPublications fs with
        | (tr3, Except.error e) => ⟨tr1 ++ tr2 ++ tr3, some e, Option.none, Option.none⟩
        | (tr3, Except.ok rows) =>
          let pubs := exportPublications rows
          let summary := computeSummary rows metrics
          let trW := [Event.write DataPath.publicationsJson, Event.write DataPath.summaryJson]
          if fs.reportlabAvailable = false then
            ⟨tr1 ++ tr2 ++ tr3 ++ trW, some BuildErr.importErrorReportlab, some pubs, some summary⟩
          else
            let trDocx := if fs.docxAvailable then [Event.write DataPath.cvDocx] else []
            ⟨tr1 ++ tr2 ++ tr3 ++ trW ++ [Event.write DataPath.cvPdf] ++ trDocx,
              Option.none, some pubs, some summary⟩

/-- Occurrences of an event in a trace. -/
def countEv : List Event → Event → ℕ
  | [], _ => 0
  | x :: xs, e => (if x = e then 1 else 0) + countEv xs e

/-- A row with every cell empty, the base of the concrete tables
used below. -/
def rowBase : Row := ⟨"", "", "", "", "", "", "", "", "", "", "", "", ""⟩

/-- A row whose year parses to the negative integer -2. -/
def rowYearNeg : Row := { rowBase with year := "-2", citation := "neg" }

/-- A row whose year does not parse. -/
def rowYearBad : Row := { rowBase with year := "x", citation := "bad" }

/-- A row that matches no CV section mask. -/
def rowNoSection : Row :=
  { rowBase with category := "misc", record_type := "journal_article", citation := "r1" }

/-- A row that matches both the List A mask and the book-chapter
mask. -/
def rowTwoSections : Row :=
  { rowBase with category := "A", record_type := "book_chapter", citation := "r2" }

/-- A row whose mnicsw_points cell is "2". -/
def rowPoints2 : Row := { rowBase with mnicsw_points := "2" }

/-- A row whose mnicsw_points cell is "nan", which Python float()
parses to NaN. -/
def rowPointsNan : Row := { rowBase with mnicsw_points := "nan" }

/-- A row whose impact_factor cell is "1.2344". -/
def rowIF12344 : Row := { rowBase with impact_factor := "1.2344" }

/-- A successfully parsed CSV with all required columns and no rows. -/
def tblEmpty : RawTable := ⟨true, []⟩

/-- A state in which the CSV is decodable only by the third attempted
encoding (cp1250), as for a Central European Excel export: the two
UTF-8 attempts raise, the third succeeds. -/
def fsEncodingRetry : FS :=
  { profilePresent := true, profileDoc := Except.ok [], metricsPresent := false
  , metricsDoc := Except.error (), csvPresent := true
  , csvRead := fun e => if e.val ≤ 1 then Option.none else some tblEmpty
  , reportlabAvailable := true, docxAvailable := true }

/-- A state in which profile.json exists but is malformed JSON while
publications.csv is absent. -/
def fsProfileBad : FS :=
  { profilePresent := true, profileDoc := Except.error (), metricsPresent := false
  , metricsDoc := Except.error (), csvPresent := false
  , csvRead := fun _ => Option.none
  , reportlabAvailable := true, docxAvailable := true }

/-- A state in which profile.json is absent. -/
def fsNoProfile : FS :=
  { profilePresent := false, profileDoc := Except.error (), metricsPresent := true
  , metricsDoc := Except.ok defaultScholarMetrics, csvPresent := true
  , csvRead := fun _ => some tblEmpty
  , reportlabAvailable := true, docxAvailable := true }

/-- A healthy state except that metrics.json is absent. -/
def fsNoMetrics : FS :=
  { profilePresent := true, profileDoc := Except.ok [], metricsPresent := false
  , metricsDoc := Except.error (), csvPresent := true
  , csvRead := fun _ => some tblEmpty
  , reportlabAvailable := true, docxAvailable := true }

lemma strptimeDMY_some (cs : List Char) (d : PyDate) (h : strptimeDMY cs = some d) :
    validDate d.year d.month d.day = true := by
  unfold strptimeDMY at h
  repeat' split at h
  any_goals exact Option.noConfusion h
  injection h with h2
  subst h2
  simp_all

lemma strptimeYMD_some (cs : List Char) (d : PyDate) (h : strptimeYMD cs = some d) :
    validDate d.year d.month d.day = true := by
  unfold strptimeYMD at h
  repeat' split at h
  any_goals exact Option.noConfusion h
  injection h with h2
  subst h2
  simp_all

lemma parseDateStr_spec (s : String) :
    parseDateStr s = Option.none ∨
      ∃ d, parseDateStr s = some d ∧ validDate d.year d.month d.day = true := by
  unfold parseDateStr
  split
  · exact Or.inl rfl
  · cases h1 : strptimeDMY (trimChars s.toList) with
    | some d => exact Or.inr ⟨d, by simp [h1], strptimeDMY_some _ _ h1⟩
    | none =>
      cases h2 : strptimeYMD (trimChars s.toList) with
      | some d => exact Or.inr ⟨d, by simp [h1, h2], strptimeYMD_some _ _ h2⟩
      | none => exact Or.inl (by simp [h1, h2])

/-- C6.  Numeric fields parse or default to absent: on every input
value (None, NaN, floats, ints, strings including the empty string and
non-numeric text) the coercions _safe_float and _safe_int return
either the value of the underlying fallible conversion or None, never
propagating an error, and the date parser _parse_date_ddmmyyyy returns
either a valid parsed date or None.  Hence loading a publications
table cannot fail because of a malformed year, mnicsw_points,
impact_factor, start_date or end_date cell. -/
theorem safe_coercions_total_c6 (v : PyVal) :
    (safeFloat v = Option.none ∨ ∃ f, pyFloat v = Except.ok f ∧ safeFloat v = some f) ∧
    (safeInt v = Option.none ∨ ∃ n, pyInt v = Except.ok n ∧ safeInt v = some n) ∧
    (parseDateAny v = Option.none ∨
      ∃ d, parseDateAny v = some d ∧ validDate d.year d.month d.day = true) := by
  refine ⟨?_, ?_, ?_⟩
  · unfold safeFloat
    split
    · exact Or.inl rfl
    · cases hp : pyFloat v with
      | ok f => exact Or.inr ⟨f, rfl, by simp [hp]⟩
      | error e => exact Or.inl (by simp [hp])
  · unfold safeInt
    split
    · exact Or.inl rfl
    · cases hp : pyInt v with
      | ok n => exact Or.inr ⟨n, rfl, by simp [hp]⟩
      | error e => exact Or.inl (by simp [hp])
  · unfold parseDateAny
    cases v with
    | none => exact Or.inl rfl
    | float f => cases f <;> first | exact Or.inl rfl | exact parseDateStr_spec _
    | int n => exact parseDateStr_spec _
    | str s => exact parseDateStr_spec _

/-- C9.  Every book chapter is also counted in List B, because the
List B mask is the disjunction of category "B" and the book-chapter
mask (build_site.py:153-154,177-179). -/
theorem book_chapters_le_list_b_c9 (rows : List Row) (metrics : Metrics) :
    (computeSummary rows metrics).totals.book_chapters ≤
      (computeSummary rows metrics).totals.publications_list_b := by
  show rows.countP (fun r => isChapter r) ≤ rows.countP (fun r => isListB r)
  exact List.countP_mono_left (fun r _ h => by simp [isListB, h])

lemma conf_counts (rows : List Row) :
    rows.countP (fun r => isConf r && !(confOral r || confPoster r)) +
        rows.countP (fun r => isConf r && (oralSub r || posterSub r)) =
      rows.countP (fun r => isConf r) ∧
    rows.countP (fun r => confOral r) + rows.countP (fun r => confPoster r) =
      rows.countP (fun r => isConf r && (oralSub r || posterSub r)) +
        rows.countP (fun r => isConf r && (oralSub r && posterSub r)) := by
  induction rows with
  | nil => simp
  | cons r t ih =>
    obtain ⟨ih1, ih2⟩ := ih
    have hco : confOral r = (isConf r && oralSub r) := rfl
    have hcp : confPoster r = (isConf r && posterSub r) := rfl
    cases hc : isConf r <;> cases ho : oralSub r <;> cases hp : posterSub r <;>
      simp only [List.countP_cons, hco, hcp, hc, ho, hp, Bool.false_and, Bool.true_and,
        Bool.and_false, Bool.and_true, Bool.or_false, Bool.or_true, Bool.false_or,
        Bool.true_or, Bool.not_false, Bool.not_true, if_true, if_false,
        Bool.false_eq_true, eq_self_iff_true, if_true, if_false, reduceIte] <;>
      omega

/-- C10.  Conference breakdown: the unspecified count equals the
conference total minus the number of conference rows whose subtype
contains "oral" or "poster"; consequently oral + posters + unspecified
is at least the conference total, with equality exactly when no
conference row has a subtype containing both "oral" and "poster"
(build_site.py:155-159,180-183). -/
theorem conference_breakdown_c10 (rows : List Row) (metrics : Metrics) :
    ((computeSummary rows metrics).totals.conference_type_unspecified +
        rows.countP (fun r => isConf r && (oralSub r || posterSub r)) =
      (computeSummary rows metrics).totals.conference_contributions_total) ∧
    ((computeSummary rows metrics).totals.conference_type_unspecified =
      (computeSummary rows metrics).totals.conference_contributions_total -
        rows.countP (fun r => isConf r && (oralSub r || posterSub r))) ∧
    ((computeSummary rows metrics).totals.conference_contributions_total ≤
      (computeSummary rows metrics).totals.conference_oral_presentations +
        (computeSummary rows metrics).totals.conference_posters +
        (computeSummary rows metrics).totals.conference_type_unspecified) ∧
    (((computeSummary rows metrics).totals.conference_oral_presentations +
          (computeSummary rows metrics).totals.conference_posters +
          (computeSummary rows metrics).totals.conference_type_unspecified =
        (computeSummary rows metrics).totals.conference_contributions_total) ↔
      ∀ r ∈ rows, ¬(isConf r = true ∧ oralSub r = true ∧ posterSub r = true)) := by
  obtain ⟨h1, h2⟩ := conf_counts rows
  have hz : rows.countP (fun r => isConf r && (oralSub r && posterSub r)) = 0 ↔
      ∀ r ∈ rows, ¬(isConf r = true ∧ oralSub r = true ∧ posterSub r = true) := by
    rw [List.countP_eq_zero]
    simp [Bool.and_eq_true]
  show (rows.countP (fun r => isConf r && !(confOral r || confPoster r)) +
        rows.countP (fun r => isConf r && (oralSub r || posterSub r)) =
      rows.countP (fun r => isConf r)) ∧
    (rows.countP (fun r => isConf r && !(confOral r || confPoster r)) =
      rows.countP (fun r => isConf r) -
        rows.countP (fun r => isConf r && (oralSub r || posterSub r))) ∧
    (rows.countP (fun r => isConf r) ≤
      rows.countP (fun r => confOral r) + rows.countP (fun r => confPoster r) +
        rows.countP (fun r => isConf r && !(confOral r || confPoster r))) ∧
    ((rows.countP (fun r => confOral r) + rows.countP (fun r => confPoster r) +
          rows.countP (fun r => isConf r && !(confOral r || confPoster r)) =
        rows.countP (fun r => isConf r)) ↔
      ∀ r ∈ rows, ¬(isConf r = true ∧ oralSub r = true ∧ posterSub r = true))
  refine ⟨h1, by omega, by omega, ?_⟩
  rw [← hz]
  omega

lemma reportMnicsw_val (f : PyFloat) : (reportMnicsw f).toPyFloat = f := by
  cases f with
  | finite q =>
    by_cases h : q.den = 1
    · simp [reportMnicsw, h, JsonNum.toPyFloat, Rat.coe_int_num_of_den_eq_one h]
    · simp [reportMnicsw, h, JsonNum.toPyFloat]
  | nan => rfl
  | inf => rfl
  | ninf => rfl

/-- C1 (amended).  The MNiSW points total reported in summary.json
equals the sum, over all rows, of the mnicsw_points values that parse
as floats, excluding values that parse to NaN: rows whose cell does
not parse as a float, or parses to NaN, contribute nothing to the
total (the dropna before the sum drops both). -/
theorem mnicsw_total_c1 (rows : List Row) (metrics : Metrics) :
    ((computeSummary rows metrics).totals.mnicsw_points).toPyFloat =
      pySum (((rows.map mnicswNum).filterMap id).filter (fun f => !f.isNan)) := by
  show (reportMnicsw (seriesSum (rows.map mnicswNum))).toPyFloat = _
  rw [reportMnicsw_val]
  rfl

/-- C1, claim as stated is false: on a table with mnicsw_points cells
"2" and "nan", the reported total is the integer 2, while the sum of
all values that parse as floats is NaN (Python float("nan") succeeds,
so the "nan" row does parse, yet it contributes nothing). -/
theorem mnicsw_total_c1_counterexample :
    ((computeSummary [rowPoints2, rowPointsNan] defaultScholarMetrics).totals.mnicsw_points).toPyFloat ≠
      pySum (([rowPoints2, rowPointsNan].map mnicswNum).filterMap id) ∧
    (computeSummary [rowPoints2, rowPointsNan] defaultScholarMetrics).totals.mnicsw_points =
      JsonNum.int 2 ∧
    pySum (([rowPoints2, rowPointsNan].map mnicswNum).filterMap id) = PyFloat.nan ∧
    parseFloatStr "nan" = some PyFloat.nan := by
  with_unfolding_all decide

/-- C2 (amended).  The impact-factor total is computed by the same
aggregation as the MNiSW total (sum of the parsed column after
dropping unparsed and NaN entries), but the two are reported
differently: sum_impact_factor is rounded to 3 decimal places, while
mnicsw_points is converted to an int exactly when the total is
integral. -/
theorem impact_factor_total_c2 (rows : List Row) (metrics : Metrics) :
    (computeSummary rows metrics).totals.sum_impact_factor =
      reportIF (pySum (((rows.map impactNum).filterMap id).filter (fun f => !f.isNan))) ∧
    (computeSummary rows metrics).totals.mnicsw_points =
      reportMnicsw (pySum (((rows.map mnicswNum).filterMap id).filter (fun f => !f.isNan))) :=
  ⟨rfl, rfl⟩

/-- C2, claim as stated is false: the two reporting functions are not
equal as functions of the parsed column.  On a table whose single
impact_factor cell is "1.2344", applying the MNiSW reporting to the
impact-factor column gives 1.2344, while the reported
sum_impact_factor is the rounded 1.234. -/
theorem impact_factor_total_c2_counterexample :
    reportMnicsw (seriesSum ([rowIF12344].map impactNum)) ≠
      (computeSummary [rowIF12344] defaultScholarMetrics).totals.sum_impact_factor ∧
    reportMnicsw (seriesSum ([rowIF12344].map impactNum)) = JsonNum.rat (1543 / 1250) ∧
    (computeSummary [rowIF12344] defaultScholarMetrics).totals.sum_impact_factor =
      JsonNum.rat (617 / 500) := by
  with_unfolding_all decide

/-- C3 (amended).  The three render targets present the rows as
follows: every CSV row appears as a record in publications.json; the
PDF CV and the DOCX CV assign rows to their four sections by identical
masks, so each section of the PDF lists exactly the rows matching its
mask, and the DOCX sections are the same lists.  (A row matching none
of the masks appears in no CV section, and a row matching several
masks appears in several.) -/
theorem render_targets_c3 (rows : List Row) (r : Row) :
    (r ∈ exportPublications rows ↔ r ∈ rows) ∧
    (r ∈ pdfListA rows ↔ ((upperStr r.category == "A") = true ∧ r ∈ rows)) ∧
    (r ∈ pdfListB rows ↔ ((upperStr r.category == "B") = true ∧ r ∈ rows)) ∧
    (r ∈ pdfChapters rows ↔ (isChapter r = true ∧ r ∈ rows)) ∧
    (r ∈ pdfConference rows ↔ (isConf r = true ∧ r ∈ rows)) ∧
    pdfListA rows = docxListA rows ∧ pdfListB rows = docxListB rows ∧
    pdfChapters rows = docxChapters rows ∧ pdfConference rows = docxConference rows := by
  refine ⟨?_, ?_, ?_, ?_, ?_, rfl, rfl, rfl, rfl⟩
  · exact (List.perm_insertionSort rowBefore rows).mem_iff
  · rw [pdfListA, (List.perm_insertionSort yearDesc _).mem_iff, List.mem_filter]
    exact and_comm
  · rw [pdfListB, (List.perm_insertionSort yearDesc _).mem_iff, List.mem_filter]
    exact and_comm
  · rw [pdfChapters, (List.perm_insertionSort yearDesc _).mem_iff, List.mem_filter]
    exact and_comm
  · rw [pdfConference, (List.perm_insertionSort confBefore _).mem_iff, List.mem_filter]
    exact and_comm

/-- C3, claim as stated is false: on a concrete two-row table, the
row with category "misc" appears in none of the four CV sections, and
the row with category "A" and record_type "book_chapter" appears in
two of them (List A and Book chapters). -/
theorem render_targets_c3_counterexample :
    rowNoSection ∈ [rowNoSection, rowTwoSections] ∧
    sectionsContaining [rowNoSection, rowTwoSections] rowNoSection = 0 ∧
    rowTwoSections ∈ [rowNoSection, rowTwoSections] ∧
    sectionsContaining [rowNoSection, rowTwoSections] rowTwoSections = 2 ∧
    rowTwoSections ∈ pdfListA [rowNoSection, rowTwoSections] ∧
    rowTwoSections ∈ pdfChapters [rowNoSection, rowTwoSections] := by
  with_unfolding_all decide

/-- C4 (amended).  publications.json is a permutation of the CSV rows
sorted by the key (year, start-date timestamp) descending, where a
year that does not parse as an int is replaced by -1 and a start date
that does not parse is replaced by the epoch timestamp 0.  (A record
with unparsed year therefore sorts as if its year were -1: below all
years above -1, but above any parsed year ≤ -2.) -/
theorem export_sorted_c4 (rows : List Row) :
    List.Sorted rowBefore (exportPublications rows) ∧
    (exportPublications rows).Perm rows ∧
    (∀ r, yearInt r = Option.none → (sortKey r).1 = -1) ∧
    (∀ r, startDateDt r = Option.none → (sortKey r).2 = 0) := by
  refine ⟨List.sorted_insertionSort rowBefore rows, List.perm_insertionSort rowBefore rows,
    ?_, ?_⟩
  · intro r h
    simp [sortKey, h]
  · intro r h
    simp [sortKey, h]

theorem export_sorted_c4_witness :
    List.Sorted rowBefore (exportPublications [rowYearNeg, rowYearBad]) ∧
    (sortKey rowYearBad).1 = -1 ∧ (sortKey rowYearBad).2 = 0 :=
  ⟨(export_sorted_c4 [rowYearNeg, rowYearBad]).1,
   (export_sorted_c4 []).2.2.1 rowYearBad (by with_unfolding_all decide),
   (export_sorted_c4 []).2.2.2 rowYearBad (by with_unfolding_all decide)⟩

/-- C4, claim as stated is false: a record whose year does not parse
does not sort below every record with a parsed year.  On the table
with years "-2" (parses to -2) and "x" (does not parse), the exported
order puts the unparseable row first, above the parsed year -2. -/
theorem export_sorted_c4_counterexample :
    exportPublications [rowYearNeg, rowYearBad] = [rowYearBad, rowYearNeg] ∧
    yearInt rowYearBad = Option.none ∧
    yearInt rowYearNeg = some (-2) := by
  with_unfolding_all decide

lemma countEv_append (a b : List Event) (e : Event) :
    countEv (a ++ b) e = countEv a e + countEv b e := by
  induction a with
  | nil => simp [countEv]
  | cons x xs ih =>
    simp only [List.cons_append, countEv, List.append_eq, ih]
    omega

lemma countEv_le_length (tr : List Event) (e : Event) : countEv tr e ≤ tr.length := by
  induction tr with
  | nil => simp [countEv]
  | cons x xs ih =>
    simp only [countEv, List.length_cons]
    split <;> omega

lemma countEv_eq_zero (tr : List Event) (e : Event) (h : ∀ x ∈ tr, x ≠ e) :
    countEv tr e = 0 := by
  induction tr with
  | nil => rfl
  | cons x xs ih =>
    simp only [countEv]
    rw [if_neg (h x (List.mem_cons_self x xs)), ih (fun y hy => h y (List.mem_cons_of_mem x hy))]

lemma tryEncodings_facts (f : Fin 5 → Option RawTable) (es : List (Fin 5)) :
    (tryEncodings f es).1.length ≤ es.length ∧
      ∀ x ∈ (tryEncodings f es).1, x = Event.read DataPath.publicationsCsv := by
  induction es with
  | nil => simp [tryEncodings]
  | cons e t ih =>
    obtain ⟨ih1, ih2⟩ := ih
    cases hfe : f e with
    | some tt =>
      refine ⟨?_, ?_⟩ <;> simp [tryEncodings, hfe]
    | none =>
      refine ⟨?_, ?_⟩ <;> simp only [tryEncodings, hfe]
      · simp only [List.length_cons]
        omega
      · intro x hx
        rcases List.mem_cons.mp hx with h | h
        · exact h
        · exact ih2 x h

lemma tryEncodings_count_read (f : Fin 5 → Option RawTable) :
    countEv (tryEncodings f encodingList).1 (Event.read DataPath.publicationsCsv) ≤ 5 :=
  le_trans (countEv_le_length _ _) (tryEncodings_facts f encodingList).1

lemma tryEncodings_count_other (f : Fin 5 → Option RawTable) (e : Event)
    (h : e ≠ Event.read DataPath.publicationsCsv) :
    countEv (tryEncodings f encodingList).1 e = 0 :=
  countEv_eq_zero _ _ fun x hx =>
    ((tryEncodings_facts f encodingList).2 x hx) ▸ (Ne.symm h)

lemma countEv_sublist {a b : List Event} (h : a.Sublist b) (e : Event) :
    countEv a e ≤ countEv b e := by
  induction h with
  | slnil => exact le_refl _
  | cons x h ih => simp only [countEv]; omega
  | cons₂ x h ih => simp only [countEv]; omega

/-- The longest trace a run can produce: both input reads, all five
CSV read attempts, and all four output writes, in program order. -/
def bigTrace (fs : FS) : List Event :=
  Event.read DataPath.profileJson :: Event.read DataPath.metricsJson ::
    ((tryEncodings fs.csvRead encodingList).1 ++
      [Event.write DataPath.publicationsJson, Event.write DataPath.summaryJson,
        Event.write DataPath.cvPdf, Event.write DataPath.cvDocx])

lemma mainRun_trace_sublist (fs : FS) : (mainRun fs).trace.Sublist (bigTrace fs) := by
  obtain ⟨pp, pd, mp, md, cp, cr, rl, dx⟩ := fs
  cases pp with
  | false => exact List.nil_sublist _
  | true =>
    cases pd with
    | error u => exact (List.nil_sublist _).cons₂ _
    | ok doc =>
      have hW0 : ([] : List Event).Sublist
          [Event.write DataPath.publicationsJson, Event.write DataPath.summaryJson,
            Event.write DataPath.cvPdf, Event.write DataPath.cvDocx] :=
        List.nil_sublist _
      have hW2 : [Event.write DataPath.publicationsJson,
          Event.write DataPath.summaryJson].Sublist
          [Event.write DataPath.publicationsJson, Event.write DataPath.summaryJson,
            Event.write DataPath.cvPdf, Event.write DataPath.cvDocx] :=
        (((List.nil_sublist _).cons _).cons _).cons₂ _ |>.cons₂ _
      have hW3 : [Event.write DataPath.publicationsJson, Event.write DataPath.summaryJson,
          Event.write DataPath.cvPdf].Sublist
          [Event.write DataPath.publicationsJson, Event.write DataPath.summaryJson,
            Event.write DataPath.cvPdf, Event.write DataPath.cvDocx] :=
        ((((List.nil_sublist _).cons _).cons₂ _).cons₂ _).cons₂ _
      have hW4 : [Event.write DataPath.publicationsJson, Event.write DataPath.summaryJson,
          Event.write DataPath.cvPdf, Event.write DataPath.cvDocx].Sublist
          [Event.write DataPath.publicationsJson, Event.write DataPath.summaryJson,
            Event.write DataPath.cvPdf, Event.write DataPath.cvDocx] :=
        List.Sublist.refl _
      cases mp with
      | true =>
        cases md with
        | error u => exact ((List.nil_sublist _).cons₂ _).cons₂ _
        | ok m =>
          show (mainRun ⟨true, Except.ok doc, true, Except.ok m, cp, cr, rl, dx⟩).trace.Sublist _
          cases cp with
          | false => exact ((List.nil_sublist _).cons₂ _).cons₂ _
          | true =>
            simp only [mainRun, loadPublications, bigTrace]
            rcases hte : tryEncodings cr encodingList with ⟨tr3, ot⟩
            simp only [hte]
            cases ot with
            | none =>
              simp only [List.append_assoc, List.cons_append, List.nil_append,
                List.append_nil, List.singleton_append]
              exact ((List.sublist_append_left tr3 _).cons₂ _).cons₂ _
            | some t =>
              obtain ⟨hc, trows⟩ := t
              cases hc with
              | false =>
                simp only [List.append_assoc, List.cons_append, List.nil_append,
                  List.append_nil, List.singleton_append]
                exact ((List.sublist_append_left tr3 _).cons₂ _).cons₂ _
              | true =>
                cases rl with
                | false =>
                  simp only [List.append_assoc, List.cons_append, List.nil_append,
                    List.append_nil, List.singleton_append]
                  exact (((List.Sublist.refl tr3).append hW2).cons₂ _).cons₂ _
                | true =>
                  cases dx with
                  | false =>
                    simp only [List.append_assoc, List.cons_append, List.nil_append,
                      List.append_nil, List.singleton_append]
                    exact (((List.Sublist.refl tr3).append hW3).cons₂ _).cons₂ _
                  | true =>
                    simp only [List.append_assoc, List.cons_append, List.nil_append,
                      List.append_nil, List.singleton_append]
                    exact (((List.Sublist.refl tr3).append hW4).cons₂ _).cons₂ _
      | false =>
        show (mainRun ⟨true, Except.ok doc, false, md, cp, cr, rl, dx⟩).trace.Sublist _
        cases cp with
        | false => exact ((List.nil_sublist _).cons _).cons₂ _
        | true =>
          simp only [mainRun, loadPublications, bigTrace]
          rcases hte : tryEncodings cr encodingList with ⟨tr3, ot⟩
          simp only [hte]
          cases ot with
          | none =>
            simp only [List.append_assoc, List.cons_append, List.nil_append,
              List.append_nil, List.singleton_append]
            exact ((List.sublist_append_left tr3 _).cons _).cons₂ _
          | some t =>
            obtain ⟨hc, trows⟩ := t
            cases hc with
            | false =>
              simp only [List.append_assoc, List.cons_append, List.nil_append,
                List.append_nil, List.singleton_append]
              exact ((List.sublist_append_left tr3 _).cons _).cons₂ _
            | true =>
              cases rl with
              | false =>
                simp only [List.append_assoc, List.cons_append, List.nil_append,
                  List.append_nil, List.singleton_append]
                exact ((((List.Sublist.refl tr3).append hW2).cons _).cons₂ _)
              | true =>
                cases dx with
                | false =>
                  simp only [List.append_assoc, List.cons_append, List.nil_append,
                    List.append_nil, List.singleton_append]
                  exact ((((List.Sublist.refl tr3).append hW3).cons _).cons₂ _)
                | true =>
                  simp only [List.append_assoc, List.cons_append, List.nil_append,
                    List.append_nil, List.singleton_append]
                  exact ((((List.Sublist.refl tr3).append hW4).cons _).cons₂ _)

/-- C7 (amended).  A run reads profile.json and metrics.json at most
once each, reads publications.csv at most once per attempted encoding
(at most five times), writes each of its four outputs at most once,
and never writes to any of its input files. -/
theorem read_once_write_once_c7 (fs : FS) :
    countEv (mainRun fs).trace (Event.read DataPath.profileJson) ≤ 1 ∧
    countEv (mainRun fs).trace (Event.read DataPath.metricsJson) ≤ 1 ∧
    countEv (mainRun fs).trace (Event.read DataPath.publicationsCsv) ≤ 5 ∧
    countEv (mainRun fs).trace (Event.write DataPath.publicationsJson) ≤ 1 ∧
    countEv (mainRun fs).trace (Event.write DataPath.summaryJson) ≤ 1 ∧
    countEv (mainRun fs).trace (Event.write DataPath.cvPdf) ≤ 1 ∧
    countEv (mainRun fs).trace (Event.write DataPath.cvDocx) ≤ 1 ∧
    countEv (mainRun fs).trace (Event.write DataPath.profileJson) = 0 ∧
    countEv (mainRun fs).trace (Event.write DataPath.metricsJson) = 0 ∧
    countEv (mainRun fs).trace (Event.write DataPath.publicationsCsv) = 0 := by
  have hm : ∀ e, countEv (mainRun fs).trace e ≤ countEv (bigTrace fs) e :=
    fun e => countEv_sublist (mainRun_trace_sublist fs) e
  have hcsv := tryEncodings_count_read fs.csvRead
  refine ⟨?_, ?_, ?_, ?_, ?_, ?_, ?_, ?_, ?_, ?_⟩
  · refine le_trans (hm _) ?_
    have h0 := tryEncodings_count_other fs.csvRead (Event.read DataPath.profileJson) (by decide)
    simp [bigTrace, countEv, countEv_append, h0]
  · refine le_trans (hm _) ?_
    have h0 := tryEncodings_count_other fs.csvRead (Event.read DataPath.metricsJson) (by decide)
    simp [bigTrace, countEv, countEv_append, h0]
  · refine le_trans (hm _) ?_
    simp only [bigTrace, countEv, countEv_append]
    simp
    omega
  · refine le_trans (hm _) ?_
    have h0 := tryEncodings_count_other fs.csvRead
      (Event.write DataPath.publicationsJson) (by decide)
    simp [bigTrace, countEv, countEv_append, h0]
  · refine le_trans (hm _) ?_
    have h0 := tryEncodings_count_other fs.csvRead (Event.write DataPath.summaryJson) (by decide)
    simp [bigTrace, countEv, countEv_append, h0]
  · refine le_trans (hm _) ?_
    have h0 := tryEncodings_count_other fs.csvRead (Event.write DataPath.cvPdf) (by decide)
    simp [bigTrace, countEv, countEv_append, h0]
  · refine le_trans (hm _) ?_
    have h0 := tryEncodings_count_other fs.csvRead (Event.write DataPath.cvDocx) (by decide)
    simp [bigTrace, countEv, countEv_append, h0]
  · have h0 := tryEncodings_count_other fs.csvRead (Event.write DataPath.profileJson) (by decide)
    have hb : countEv (bigTrace fs) (Event.write DataPath.profileJson) = 0 := by
      simp [bigTrace, countEv, countEv_append, h0]
    have := hm (Event.write DataPath.profileJson)
    omega
  · have h0 := tryEncodings_count_other fs.csvRead (Event.write DataPath.metricsJson) (by decide)
    have hb : countEv (bigTrace fs) (Event.write DataPath.metricsJson) = 0 := by
      simp [bigTrace, countEv, countEv_append, h0]
    have := hm (Event.write DataPath.metricsJson)
    omega
  · have h0 := tryEncodings_count_other fs.csvRead
      (Event.write DataPath.publicationsCsv) (by decide)
    have hb : countEv (bigTrace fs) (Event.write DataPath.publicationsCsv) = 0 := by
      simp [bigTrace, countEv, countEv_append, h0]
    have := hm (Event.write DataPath.publicationsCsv)
    omega

/-- C7, claim as stated is false: the encoding-fallback loop of
load_publications_df re-reads publications.csv once per attempted
encoding, so a CSV that only the third encoding can decode is read
three times in a single run, not at most once. -/
theorem read_once_write_once_c7_counterexample :
    countEv (mainRun fsEncodingRetry).trace (Event.read DataPath.publicationsCsv) = 3 ∧
    ¬(countEv (mainRun fsEncodingRetry).trace (Event.read DataPath.publicationsCsv) ≤ 1) := by
  with_unfolding_all decide

/-- C5 (amended).  A file-not-found failure implies publications.csv
or profile.json is absent; an absent profile.json always fails that
way, and an absent publications.csv fails that way provided the
earlier loads do not fail first (profile.json parses, and
metrics.json parses when present).  Whenever either required input is
absent the run writes nothing: no write event appears in the trace
and neither output document is produced, because both loads happen
before any output is written. -/
theorem build_failure_c5 (fs : FS) :
    (∀ p, (mainRun fs).err = some (BuildErr.fileNotFound p) →
      (p = DataPath.profileJson ∧ fs.profilePresent = false) ∨
      (p = DataPath.publicationsCsv ∧ fs.csvPresent = false)) ∧
    (fs.profilePresent = false →
      (mainRun fs).err = some (BuildErr.fileNotFound DataPath.profileJson)) ∧
    (fs.csvPresent = false → fs.profilePresent = true →
      (∃ doc, fs.profileDoc = Except.ok doc) →
      (fs.metricsPresent = true → ∃ m, fs.metricsDoc = Except.ok m) →
      (mainRun fs).err = some (BuildErr.fileNotFound DataPath.publicationsCsv)) ∧
    ((fs.profilePresent = false ∨ fs.csvPresent = false) →
      (∀ p, Event.write p ∉ (mainRun fs).trace) ∧
      (mainRun fs).pubsOut = Option.none ∧ (mainRun fs).summaryOut = Option.none) := by
  obtain ⟨pp, pd, mp, md, cp, cr, rl, dx⟩ := fs
  refine ⟨?_, ?_, ?_, ?_⟩
  · intro p h
    cases pp with
    | false =>
      have h2 : some (BuildErr.fileNotFound DataPath.profileJson) =
          some (BuildErr.fileNotFound p) := h
      injection h2 with h3
      injection h3 with h4
      exact Or.inl ⟨h4.symm, rfl⟩
    | true =>
      cases pd with
      | error u => simp [mainRun] at h
      | ok doc =>
        cases mp with
        | true =>
          cases md with
          | error u => simp [mainRun] at h
          | ok m =>
            cases cp with
            | false =>
              have h2 : some (BuildErr.fileNotFound DataPath.publicationsCsv) =
                  some (BuildErr.fileNotFound p) := h
              injection h2 with h3
              injection h3 with h4
              exact Or.inr ⟨h4.symm, rfl⟩
            | true =>
              rcases hte : tryEncodings cr encodingList with ⟨tr3, ot⟩
              cases ot with
              | none => simp [mainRun, loadPublications, hte] at h
              | some t =>
                obtain ⟨hc, rws⟩ := t
                cases hc with
                | false => simp [mainRun, loadPublications, hte] at h
                | true =>
                  cases rl with
                  | false => simp [mainRun, loadPublications, hte] at h
                  | true => simp [mainRun, loadPublications, hte] at h
        | false =>
          cases cp with
          | false =>
            have h2 : some (BuildErr.fileNotFound DataPath.publicationsCsv) =
                some (BuildErr.fileNotFound p) := h
            injection h2 with h3
            injection h3 with h4
            exact Or.inr ⟨h4.symm, rfl⟩
          | true =>
            rcases hte : tryEncodings cr encodingList with ⟨tr3, ot⟩
            cases ot with
            | none => simp [mainRun, loadPublications, hte] at h
            | some t =>
              obtain ⟨hc, rws⟩ := t
              cases hc with
              | false => simp [mainRun, loadPublications, hte] at h
              | true =>
                cases rl with
                | false => simp [mainRun, loadPublications, hte] at h
                | true => simp [mainRun, loadPublications, hte] at h
  · intro h
    cases pp with
    | false => rfl
    | true => exact Bool.noConfusion h
  · intro hcp hpp hdoc hmd
    cases pp with
    | false => exact Bool.noConfusion hpp
    | true =>
      cases pd with
      | error u =>
        obtain ⟨doc, hd⟩ := hdoc
        exact Except.noConfusion hd
      | ok doc =>
        cases cp with
        | true => exact Bool.noConfusion hcp
        | false =>
          cases mp with
          | false => rfl
          | true =>
            obtain ⟨m, hm⟩ := hmd rfl
            cases md with
            | error u => exact Except.noConfusion hm
            | ok m2 => rfl
  · intro hor
    cases pp with
    | false => exact ⟨fun p => by simp [mainRun], rfl, rfl⟩
    | true =>
      have hcp : cp = false := by
        rcases hor with h | h
        · exact Bool.noConfusion h
        · exact h
      subst hcp
      cases pd with
      | error u => exact ⟨fun p => by simp [mainRun], rfl, rfl⟩
      | ok doc =>
        cases mp with
        | false => exact ⟨fun p => by simp [mainRun, loadPublications], rfl, rfl⟩
        | true =>
          cases md with
          | error u => exact ⟨fun p => by simp [mainRun], rfl, rfl⟩
          | ok m => exact ⟨fun p => by simp [mainRun, loadPublications], rfl, rfl⟩

/-- A healthy state except that publications.csv is absent. -/
def fsNoCsv : FS :=
  { profilePresent := true, profileDoc := Except.ok [], metricsPresent := false
  , metricsDoc := Except.error (), csvPresent := false
  , csvRead := fun _ => Option.none
  , reportlabAvailable := true, docxAvailable := true }

theorem build_failure_c5_witness :
    (mainRun fsNoProfile).err = some (BuildErr.fileNotFound DataPath.profileJson) ∧
    (mainRun fsNoCsv).err = some (BuildErr.fileNotFound DataPath.publicationsCsv) ∧
    ((DataPath.publicationsCsv = DataPath.profileJson ∧ fsNoCsv.profilePresent = false) ∨
      (DataPath.publicationsCsv = DataPath.publicationsCsv ∧ fsNoCsv.csvPresent = false)) ∧
    Event.write DataPath.summaryJson ∉ (mainRun fsNoProfile).trace ∧
    (mainRun fsNoCsv).summaryOut = Option.none :=
  ⟨(build_failure_c5 fsNoProfile).2.1 rfl,
   (build_failure_c5 fsNoCsv).2.2.1 rfl rfl ⟨[], rfl⟩ (fun hm => Bool.noConfusion hm),
   (build_failure_c5 fsNoCsv).1 DataPath.publicationsCsv
     ((build_failure_c5 fsNoCsv).2.2.1 rfl rfl ⟨[], rfl⟩ (fun hm => Bool.noConfusion hm)),
   ((build_failure_c5 fsNoProfile).2.2.2 (Or.inl rfl)).1 DataPath.summaryJson,
   ((build_failure_c5 fsNoCsv).2.2.2 (Or.inr rfl)).2.2⟩

/-- C5, claim as stated is false: the failure is with a file-not-found
error exactly when an input is absent does not hold as a biconditional.
When profile.json exists but holds malformed JSON and publications.csv
is absent, the run fails with a JSON decode error, not a file-not-found
error, even though publications.csv is absent. -/
theorem build_failure_c5_counterexample :
    fsProfileBad.csvPresent = false ∧
    (mainRun fsProfileBad).err = some (BuildErr.jsonDecodeError DataPath.profileJson) ∧
    ∀ p, some (BuildErr.jsonDecodeError DataPath.profileJson) ≠
      some (BuildErr.fileNotFound p) := by
  refine ⟨rfl, rfl, fun p h => ?_⟩
  simp at h

/-- C8 (amended).  If data/metrics.json does not exist the build does
not fail on it: load_scholar_metrics returns a default record whose
fields are all empty strings except source, which is "Google Scholar",
and note, which is "metrics.json not found"; and whenever a run
without metrics.json produces summary.json, its scholar_metrics block
consists of those empty values. -/
theorem metrics_default_c8 :
    (defaultScholarMetrics.author_id = "" ∧ defaultScholarMetrics.profile_url = "" ∧
      defaultScholarMetrics.citations_all = "" ∧
      defaultScholarMetrics.citations_since_2016 = "" ∧
      defaultScholarMetrics.h_index_all = "" ∧
      defaultScholarMetrics.h_index_since_2016 = "" ∧
      defaultScholarMetrics.i10_index_all = "" ∧
      defaultScholarMetrics.i10_index_since_2016 = "" ∧
      defaultScholarMetrics.last_updated = "" ∧
      defaultScholarMetrics.source = "Google Scholar" ∧
      defaultScholarMetrics.note = "metrics.json not found") ∧
    ∀ fs : FS, fs.metricsPresent = false → ∀ s, (mainRun fs).summaryOut = some s →
      s.scholar_metrics =
        { citations_all := "", h_index_all := "", i10_index_all := ""
        , last_updated := "", profile_url := "" } := by
  refine ⟨⟨rfl, rfl, rfl, rfl, rfl, rfl, rfl, rfl, rfl, rfl, rfl⟩, ?_⟩
  intro fs hmp s hs
  obtain ⟨pp, pd, mp, md, cp, cr, rl, dx⟩ := fs
  subst hmp
  cases pp with
  | false => exact Option.noConfusion hs
  | true =>
    cases pd with
    | error u => exact Option.noConfusion hs
    | ok doc =>
      cases cp with
      | false => exact Option.noConfusion hs
      | true =>
        rcases hte : tryEncodings cr encodingList with ⟨tr3, ot⟩
        cases ot with
        | none =>
          simp [mainRun, loadPublications, hte] at hs
        | some t =>
          obtain ⟨hc, rws⟩ := t
          cases hc with
          | false => simp [mainRun, loadPublications, hte] at hs
          | true =>
            cases rl with
            | false =>
              simp only [mainRun, loadPublications, hte] at hs
              have hs2 : some (computeSummary rws defaultScholarMetrics) = some s := hs
              injection hs2 with hs3
              rw [← hs3]
              rfl
            | true =>
              simp only [mainRun, loadPublications, hte] at hs
              have hs2 : some (computeSummary rws defaultScholarMetrics) = some s := hs
              injection hs2 with hs3
              rw [← hs3]
              rfl

theorem metrics_default_c8_witness :
    (computeSummary [] defaultScholarMetrics).scholar_metrics =
      { citations_all := "", h_index_all := "", i10_index_all := ""
      , last_updated := "", profile_url := "" } :=
  metrics_default_c8.2 fsNoMetrics rfl (computeSummary [] defaultScholarMetrics) rfl

/-- C8, claim as stated is false: not all of the default record
fields besides note are empty strings, since the source field of the
default record is "Google Scholar". -/
theorem metrics_default_c8_counterexample :
    defaultScholarMetrics.source = "Google Scholar" ∧
    defaultScholarMetrics.source ≠ "" := by
  with_unfolding_all decide
